import Mathlib

/-!
Verification development for `lalscribe` (`src/app.py`), a single-script
Streamlit front end that uploads an audio file to the Gemini SDK and renders
the model's JSON response.

The script is embedded shallowly:

* `Json` models a parsed Python JSON document (the result of `json.loads`):
  JSON `null`/booleans/numbers/strings/arrays/objects map to Python
  `None`/`bool`/`int`/`str`/`list`/`dict`.
* `PyErr` models the Python exceptions the script can raise.
* `Ev` models the observable effects of one button press: Streamlit display
  calls (`st.error`, `st.warning`, `st.info`, `st.success`, `st.header`,
  `st.subheader`, `st.caption`, `st.divider`, `st.metric`, `st.write`,
  `st.markdown`, `st.code`, `st.spinner`) and the side-effecting calls
  (`genai.configure`, the temp-file write, `genai.upload_file`,
  `model.generate_content`, `genai.delete_file`, `os.remove`).
* Remote SDK calls are nondeterministic; an `Oracle` fixes their outcome for
  one run (each call either returns or raises).
* `processAudio` embeds the button handler, lines 113-215 of `src/app.py`.

A load-bearing fact about the source: `src/app.py` imports only `streamlit`,
`google.generativeai`, `tempfile` and `os` (lines 1-4).  The name `json` used
at line 149 (`json.loads(response.text)`) and line 210
(`except json.JSONDecodeError:`) is never bound, so line 149 raises
`NameError` on every run that reaches it, the inner `except` clause raises
`NameError` again while being evaluated, and the outer `except Exception`
handler at line 214 catches it.  The embedding reproduces this; the renderer
body (lines 152-208), which is dead code in the shipped script, is embedded
separately as `renderBody` taking the parsed document as input, since several
claims are about exactly that projection.
-/

/-- A parsed JSON document as Python represents it (`json.loads` output).
Numbers are modelled as integers; no claim depends on float values. -/
inductive Json : Type where
  | null : Json
  | bool : Bool → Json
  | num : Int → Json
  | str : String → Json
  | arr : List Json → Json
  | obj : List (String × Json) → Json

/-- Python exceptions the script can raise or observe. -/
inductive PyErr : Type where
  /-- `NameError` — here always `name json is not defined` (missing import). -/
  | nameError : PyErr
  /-- `AttributeError` — e.g. calling `.get` on a non-dict value. -/
  | attributeError : PyErr
  /-- `TypeError` — e.g. `", ".join` or iteration over a non-iterable. -/
  | typeError : PyErr
  /-- Any exception raised by a `genai` SDK call, with its message. -/
  | remoteError : String → PyErr
deriving DecidableEq

/-- Observable effects of one button press: Streamlit display calls and the
side-effecting local/remote calls, in program order. -/
inductive Ev : Type where
  | errorMsg : String → Ev
  | warningMsg : String → Ev
  | infoMsg : String → Ev
  | successMsg : String → Ev
  | spinner : String → Ev
  | header : String → Ev
  | subheader : String → Ev
  | caption : String → Ev
  | divider : Ev
  | metric : String → Json → Ev
  | write : Json → Ev
  | markdown : String → Ev
  | codeBlock : Json → Ev
  /-- `genai.configure(api_key=...)` (line 120). -/
  | configureCall : Ev
  /-- The `tempfile.NamedTemporaryFile` write (lines 124-126). -/
  | writeTempFile : Ev
  /-- `genai.upload_file(temp_path)` (line 129). -/
  | uploadCall : Ev
  /-- `model.generate_content(...)` (line 139). -/
  | generateCall : Ev
  /-- `genai.delete_file(uploaded_gemini_file.name)` (line 142). -/
  | deleteRemoteCall : Ev
  /-- `os.remove(temp_path)` (line 143). -/
  | removeLocalCall : Ev
  /-- `st.error(f"An error occurred: ...")` from the outer handler (line 215),
  carrying the caught exception. -/
  | topLevelError : PyErr → Ev

/-- Last-binding lookup in a parsed JSON object: `json.loads` builds a Python
dict in which a repeated key keeps its last value. -/
def jlookup (fs : List (String × Json)) (k : String) : Option Json :=
  (fs.reverse.find? (fun p => p.1 == k)).map Prod.snd

/-- Python `value.get(key, default)`: only dicts have `.get`; every other
value raises `AttributeError`. -/
def pyGet (j : Json) (k : String) (d : Json) : Except PyErr Json :=
  match j with
  | .obj fs => .ok ((jlookup fs k).getD d)
  | _ => .error .attributeError

/-- The single-quote character, used by Python `repr` of strings. -/
def pySQuote : String := String.mk [Char.ofNat 39]

mutual
/-- Python `repr` of a parsed JSON value, approximated: container reprs use
single quotes and `", "` separators; string-escape corner cases are not
modelled (no claim exercises them). -/
def pyRepr : Json → String
  | .null => "None"
  | .bool b => if b then "True" else "False"
  | .num n => toString n
  | .str s => pySQuote ++ s ++ pySQuote
  | .arr xs => "[" ++ pyReprList xs ++ "]"
  | .obj fs => "\x7b" ++ pyReprFields fs ++ "\x7d"

/-- Comma-separated reprs of list elements. -/
def pyReprList : List Json → String
  | [] => ""
  | [j] => pyRepr j
  | j :: rest => pyRepr j ++ ", " ++ pyReprList rest

/-- Comma-separated reprs of dict entries. -/
def pyReprFields : List (String × Json) → String
  | [] => ""
  | [(k, v)] => pySQuote ++ k ++ pySQuote ++ ": " ++ pyRepr v
  | (k, v) :: rest => pySQuote ++ k ++ pySQuote ++ ": " ++ pyRepr v ++ ", " ++ pyReprFields rest
end

/-- Python `str()` as used by f-string interpolation: strings are inserted
verbatim, everything else via `repr`-like rendering (`str(None) = "None"`). -/
def pyStr : Json → String
  | .str s => s
  | j => pyRepr j

/-- Python `", ".join(x)`: joins an iterable of strings.  A string iterates
over its characters, a dict over its keys; lists require every element to be
a string; other values raise `TypeError`. -/
def pyJoin : Json → Except PyErr String
  | .str s => .ok (String.intercalate ", " (s.toList.map Char.toString))
  | .arr xs =>
      match xs.mapM (fun j => match j with | .str s => some s | _ => none) with
      | some ss => .ok (String.intercalate ", " ss)
      | none => .error .typeError
  | .obj fs => .ok (String.intercalate ", " (fs.map Prod.fst))
  | _ => .error .typeError

/-- Python `for x in v`: lists yield elements, strings yield one-character
strings, dicts yield their keys; other values raise `TypeError`. -/
def pyIter : Json → Except PyErr (List Json)
  | .arr xs => .ok xs
  | .str s => .ok (s.toList.map (fun c => Json.str (Char.toString c)))
  | .obj fs => .ok (fs.map (fun p => Json.str p.1))
  | _ => .error .typeError

/-- Python truthiness of a parsed JSON value (`if actions:` at line 184). -/
def pyTruthy : Json → Bool
  | .null => false
  | .bool b => b
  | .num n => n != 0
  | .str s => s != ""
  | .arr xs => !xs.isEmpty
  | .obj fs => !fs.isEmpty

/-- Whether a value is a Python dict. -/
def Json.isObj : Json → Bool
  | .obj _ => true
  | _ => false

/-- One straight-line stage of the script: the events it emitted in order,
and either a value or the exception that escaped mid-stage. -/
def Step (α : Type) : Type := List Ev × Except PyErr α

/-- Sequence two stages: on an exception the events emitted so far are kept
(they were already displayed) and the continuation is skipped. -/
def bindS {α β : Type} (s : Step α) (k : α → Step β) : Step β :=
  match s with
  | (es, .error e) => (es, .error e)
  | (es, .ok a) => (es ++ (k a).1, (k a).2)

/-- A pure computation as a stage. -/
def liftS {α : Type} (r : Except PyErr α) : Step α := ([], r)

/-- Emit one display event. -/
def emitS (e : Ev) : Step Unit := ([e], .ok ())

/-- Lines 155-165 of `src/app.py` — the dashboard header and the metadata
metric row:
`meta = data.get("meeting_metadata", {})`, three `st.metric` calls (the
second and third join a string list with `", ".join`), then `st.divider()`. -/
def metaStage (data : Json) : Step Unit :=
  bindS (emitS (Ev.header "Meeting Dashboard")) fun _ =>
  bindS (liftS (pyGet data "meeting_metadata" (Json.obj []))) fun meta =>
  bindS (liftS (pyGet meta "speaker_count_estimate" (Json.str "N/A"))) fun spk =>
  bindS (emitS (Ev.metric "Speakers Detected" spk)) fun _ =>
  bindS (liftS (pyGet meta "primary_languages" (Json.arr []))) fun plJ =>
  bindS (liftS (pyJoin plJ)) fun pl =>
  bindS (emitS (Ev.metric "Primary Languages" (Json.str pl))) fun _ =>
  bindS (liftS (pyGet meta "audio_quality_notes" (Json.arr []))) fun aqJ =>
  bindS (liftS (pyJoin aqJ)) fun aq =>
  bindS (emitS (Ev.metric "Audio Quality" (Json.str aq))) fun _ =>
  emitS Ev.divider

/-- Line 176-177: `for bullet in notes.get("executive_summary_bullets", []):
st.markdown(f"- \x7bbullet\x7d")`. -/
def renderBulletsS : List Json → Step Unit
  | [] => ([], .ok ())
  | b :: rest =>
      bindS (emitS (Ev.markdown ("- " ++ pyStr b))) fun _ =>
      renderBulletsS rest

/-- Lines 185-186: per action item, `act.get` with defaults for the four
fields, rendered into one markdown line.  A non-dict item raises
`AttributeError` at its first `.get`. -/
def renderActsS : List Json → Step Unit
  | [] => ([], .ok ())
  | act :: rest =>
      bindS (liftS (pyGet act "action" Json.null)) fun a =>
      bindS (liftS (pyGet act "owner" (Json.str "Unassigned"))) fun o =>
      bindS (liftS (pyGet act "deadline" (Json.str "None"))) fun d =>
      bindS (liftS (pyGet act "priority" (Json.str "Normal"))) fun p =>
      bindS (emitS (Ev.markdown ("**" ++ pyStr a ++ "** \n*(Owner: " ++ pyStr o ++
        " | Deadline: " ++ pyStr d ++ " | Priority: " ++ pyStr p ++ ")*"))) fun _ =>
      renderActsS rest

/-- Lines 193-194: per decision, `dec.get` for decision text (default `None`)
and owner (default `"N/A"`). -/
def renderDecsS : List Json → Step Unit
  | [] => ([], .ok ())
  | dec :: rest =>
      bindS (liftS (pyGet dec "decision" Json.null)) fun d =>
      bindS (liftS (pyGet dec "owner" (Json.str "N/A"))) fun o =>
      bindS (emitS (Ev.markdown ("- " ++ pyStr d ++ " *(Owner: " ++ pyStr o ++ ")*"))) fun _ =>
      renderDecsS rest

/-- Lines 197-198: `for risk in ...: st.markdown(f"- \x7brisk\x7d")`. -/
def renderRisksS : List Json → Step Unit
  | [] => ([], .ok ())
  | r :: rest =>
      bindS (emitS (Ev.markdown ("- " ++ pyStr r))) fun _ =>
      renderRisksS rest

/-- Lines 167-198 — the meeting-note half of the dashboard tab:
`notes = data.get("meeting_note", {})`, overview, executive-summary bullets,
action items (with the `if actions:` truthiness test and the
`"No action items detected."` fallback), then the expander with decisions and
risks. -/
def notesStage (data : Json) : Step Unit :=
  bindS (liftS (pyGet data "meeting_note" (Json.obj []))) fun notes =>
  bindS (emitS (Ev.subheader "Overview")) fun _ =>
  bindS (liftS (pyGet notes "meeting_overview" (Json.str "No overview provided."))) fun ov =>
  bindS (emitS (Ev.write ov)) fun _ =>
  bindS (emitS (Ev.subheader "Executive Summary")) fun _ =>
  bindS (liftS (pyGet notes "executive_summary_bullets" (Json.arr []))) fun bj =>
  bindS (liftS (pyIter bj)) fun bullets =>
  bindS (renderBulletsS bullets) fun _ =>
  bindS (emitS Ev.divider) fun _ =>
  bindS (emitS (Ev.subheader "✅ Action Items")) fun _ =>
  bindS (liftS (pyGet notes "action_items" (Json.arr []))) fun aj =>
  bindS (if pyTruthy aj then
           bindS (liftS (pyIter aj)) fun acts => renderActsS acts
         else
           emitS (Ev.write (Json.str "No action items detected."))) fun _ =>
  bindS (emitS (Ev.markdown "**Decisions Made:**")) fun _ =>
  bindS (liftS (pyGet notes "decisions_made" (Json.arr []))) fun dj =>
  bindS (liftS (pyIter dj)) fun decs =>
  bindS (renderDecsS decs) fun _ =>
  bindS (emitS (Ev.markdown "**Risks / Blockers:**")) fun _ =>
  bindS (liftS (pyGet notes "risks_or_blockers" (Json.arr []))) fun rj =>
  bindS (liftS (pyIter rj)) fun risks =>
  renderRisksS risks

/-- Lines 154-198: the whole "Dashboard & Notes" tab body. -/
def tab1Evs (data : Json) : Step Unit :=
  bindS (metaStage data) fun _ => notesStage data

/-- Lines 200-204: the "Full Transcript" tab body. -/
def tab2Evs (data : Json) : Step Unit :=
  bindS (emitS (Ev.header "Transcript")) fun _ =>
  bindS (emitS (Ev.caption "Hover over the top right corner of the box below to copy the transcript.")) fun _ =>
  bindS (liftS (pyGet data "transcript_plaintext" (Json.str "No transcript available."))) fun tp =>
  emitS (Ev.codeBlock tp)

/-- Lines 206-208: the "Raw JSON" tab body — `st.code(response.text)` shows
the raw response text verbatim. -/
def tab3Evs (raw : String) : List Ev :=
  [Ev.header "Raw JSON Output", Ev.codeBlock (Json.str raw)]

/-- Lines 152-208 of `src/app.py`: the renderer body applied to a parsed
response document `data` and the raw response text `raw`.  Tab bodies run in
program order; an exception escaping one tab skips the rest (and is caught by
the outer handler at line 214).  In the shipped script this code is
unreachable — `json.loads` at line 149 raises `NameError` because `json` is
never imported — but it is the projection the renderer claims describe. -/
def renderBody (data : Json) (raw : String) : List Ev × Option PyErr :=
  match tab1Evs data with
  | (es, .error e) => (es, some e)
  | (es, .ok _) =>
      match tab2Evs data with
      | (fs, .error e) => (es ++ fs, some e)
      | (fs, .ok _) => (es ++ fs ++ tab3Evs raw, none)

/-- Outcome of one `genai` SDK call in one run: either it returns or it
raises.  The calls are remote and nondeterministic; a run is parameterised by
an oracle fixing each outcome.  `generate` returns `response.text` on
success. -/
structure Oracle : Type where
  configure : Except PyErr Unit
  upload : Except PyErr Unit
  generate : Except PyErr String
  deleteRemote : Except PyErr Unit
  removeLocal : Except PyErr Unit

/-- Lines 119-212 of `src/app.py`: the body of the outer `try` block, given
the selected model name and the run's oracle.  Returns the events emitted in
order and the exception escaping the block, if any.  After a successful
generation the script deletes the remote file and the local temp file, shows
the success banner, and then runs `data = json.loads(response.text)`; since
`json` is never imported this raises `NameError`, and evaluating the
`except json.JSONDecodeError:` clause at line 210 raises `NameError` again,
so the exception escapes the inner `try` no matter what the response text
was. -/
def processBody (model : String) (o : Oracle) : List Ev × Option PyErr :=
  match o.configure with
  | .error e => ([Ev.configureCall], some e)
  | .ok _ =>
    let evs := [Ev.configureCall, Ev.spinner ("Analyzing with " ++ model ++ "..."),
                Ev.writeTempFile, Ev.infoMsg "Uploading audio file securely...",
                Ev.uploadCall]
    match o.upload with
    | .error e => (evs, some e)
    | .ok _ =>
      let evs := evs ++ [Ev.infoMsg "Generating transcripts and meeting notes...",
                         Ev.generateCall]
      match o.generate with
      | .error e => (evs, some e)
      | .ok _text =>
        let evs := evs ++ [Ev.deleteRemoteCall]
        match o.deleteRemote with
        | .error e => (evs, some e)
        | .ok _ =>
          let evs := evs ++ [Ev.removeLocalCall]
          match o.removeLocal with
          | .error e => (evs, some e)
          | .ok _ =>
            (evs ++ [Ev.successMsg "Processing Complete!"], some PyErr.nameError)

/-- Lines 113-215 of `src/app.py`: the "Process Audio" button handler.
`api_key` is the text-input value (`not api_key` is true exactly for the
empty string); `audio_file` is `none` when no file is uploaded.  The outer
`except Exception as e` handler turns any exception escaping the `try` body
into the `st.error(f"An error occurred: ...")` message. -/
def processAudio (api_key : String) (audio_file : Option String) (model : String)
    (o : Oracle) : List Ev × Option PyErr :=
  if api_key = "" then
    ([Ev.errorMsg "Please enter your Gemini API Key in the sidebar."], none)
  else
    match audio_file with
    | none => ([Ev.warningMsg "Please upload an audio file first."], none)
    | some _ =>
      match processBody model o with
      | (es, some e) => (es ++ [Ev.topLevelError e], none)
      | (es, none) => (es, none)

/-- Events that are calls to the remote service SDK. -/
def isNetworkEv : Ev → Bool
  | .configureCall => true
  | .uploadCall => true
  | .generateCall => true
  | .deleteRemoteCall => true
  | _ => false

/-- A trace containing no remote-SDK call. -/
def networkFree (evs : List Ev) : Bool :=
  evs.all (fun e => !isNetworkEv e)

/-- Whether an event is the `model.generate_content` call. -/
def isGenerate : Ev → Bool
  | .generateCall => true
  | _ => false

/-- Number of generation requests issued in a trace. -/
def generateCount (evs : List Ev) : Nat :=
  (evs.filter isGenerate).length

/-- Whether an `Except` outcome is a success. -/
def exOk {α : Type} : Except PyErr α → Bool
  | .ok _ => true
  | .error _ => false

/-- The dashboard metric row renders `meta` without raising: `meta` supports
`.get` (it is a dict — or it is the `\x7b\x7d` default) and its
`primary_languages` and `audio_quality_notes` values can be joined by
`", ".join`. -/
def metaRenderOk (meta : Json) : Bool :=
  exOk (pyGet meta "speaker_count_estimate" (Json.str "N/A")) &&
  (match pyGet meta "primary_languages" (Json.arr []) with
   | .ok j => exOk (pyJoin j)
   | .error _ => false) &&
  (match pyGet meta "audio_quality_notes" (Json.arr []) with
   | .ok j => exOk (pyJoin j)
   | .error _ => false)

/-- C4: for every button press with an empty credential, the handler shows
only the missing-credential message (`st.error` at line 115) and the trace
contains no `genai.configure`, upload, or generate call — the request is
rejected before any network call, whatever file, model or remote behaviour
the run has. -/
theorem c4_missing_credential_rejected (file : Option String) (model : String) (o : Oracle) :
    processAudio "" file model o =
      ([Ev.errorMsg "Please enter your Gemini API Key in the sidebar."], none) ∧
    networkFree (processAudio "" file model o).1 = true :=
  ⟨rfl, rfl⟩

/-- C5: for every button press with a non-empty credential but no uploaded
file, the handler shows only the missing-input message (`st.warning` at
line 117) and performs no network call. -/
theorem c5_missing_input_rejected (key model : String) (o : Oracle) (h : key ≠ "") :
    processAudio key none model o =
      ([Ev.warningMsg "Please upload an audio file first."], none) ∧
    networkFree (processAudio key none model o).1 = true := by
  have h1 : processAudio key none model o =
      ([Ev.warningMsg "Please upload an audio file first."], none) := by
    unfold processAudio
    rw [if_neg h]
  exact ⟨h1, by rw [h1]; rfl⟩

/-- C5 witness: a concrete run with credential `"k"` and no file. -/
theorem c5_missing_input_rejected_witness :
    processAudio "k" none "gemini-2.5-pro" ⟨.ok (), .ok (), .ok "t", .ok (), .ok ()⟩ =
      ([Ev.warningMsg "Please upload an audio file first."], none) ∧
    networkFree (processAudio "k" none "gemini-2.5-pro" ⟨.ok (), .ok (), .ok "t", .ok (), .ok ()⟩).1 = true :=
  c5_missing_input_rejected "k" "gemini-2.5-pro" ⟨.ok (), .ok (), .ok "t", .ok (), .ok ()⟩ (by decide)

/-- C9: when both the credential and the file are missing, the `if not
api_key:` branch (line 114) wins: only the missing-credential message is
shown, the missing-input warning of the `elif` branch (line 117) is never
emitted, and no network call occurs. -/
theorem c9_credential_check_precedence (model : String) (o : Oracle) :
    processAudio "" none model o =
      ([Ev.errorMsg "Please enter your Gemini API Key in the sidebar."], none) ∧
    (∀ s, Ev.warningMsg s ∉ (processAudio "" none model o).1) ∧
    networkFree (processAudio "" none model o).1 = true := by
  refine ⟨rfl, ?_, rfl⟩
  intro s hs
  simp [processAudio] at hs

/-- C6: whatever the inputs and whatever each remote call does, the button
handler never lets an exception escape (the second component of
`processAudio` — an exception escaping the script — is always `none`), and
every failure condition surfaces as a visible message: an empty credential
shows the missing-credential error, a missing file shows the missing-input
warning, and any exception escaping the `try` body (remote-service errors as
well as the `NameError` every response triggers in place of a parse failure)
is surfaced by the outer handler as the `An error occurred:` message. -/
theorem c6_all_failures_surfaced_nonfatal (key : String) (file : Option String)
    (model : String) (o : Oracle) :
    (processAudio key file model o).2 = none ∧
    (key = "" →
      Ev.errorMsg "Please enter your Gemini API Key in the sidebar." ∈ (processAudio key file model o).1) ∧
    (key ≠ "" → file = none →
      Ev.warningMsg "Please upload an audio file first." ∈ (processAudio key file model o).1) ∧
    (∀ f e, key ≠ "" → file = some f → (processBody model o).2 = some e →
      Ev.topLevelError e ∈ (processAudio key file model o).1) := by
  refine ⟨?_, ?_, ?_, ?_⟩
  · by_cases hk : key = ""
    · simp [processAudio, hk]
    · cases file with
      | none => simp [processAudio, hk]
      | some f =>
        rcases hpb : processBody model o with ⟨es, r⟩
        cases r <;> simp [processAudio, hk, hpb]
  · intro hk
    simp [processAudio, hk]
  · intro hk hf
    subst hf
    simp [processAudio, hk]
  · intro f e hk hf hbody
    subst hf
    rcases hpb : processBody model o with ⟨es, r⟩
    rw [hpb] at hbody
    simp at hbody
    subst hbody
    simp [processAudio, hk, hpb]

/-- C6 witness: a concrete run in which the generate call raises a quota
error; the run ends with no escaping exception and the top-level message
carrying that error. -/
theorem c6_all_failures_surfaced_nonfatal_witness :
    (processAudio "k" (some "a.mp3") "m" ⟨.ok (), .ok (), .error (.remoteError "quota exceeded"), .ok (), .ok ()⟩).2 = none ∧
    Ev.topLevelError (PyErr.remoteError "quota exceeded") ∈
      (processAudio "k" (some "a.mp3") "m" ⟨.ok (), .ok (), .error (.remoteError "quota exceeded"), .ok (), .ok ()⟩).1 := by
  have h := c6_all_failures_surfaced_nonfatal "k" (some "a.mp3") "m"
    ⟨.ok (), .ok (), .error (.remoteError "quota exceeded"), .ok (), .ok ()⟩
  exact ⟨h.1, h.2.2.2 "a.mp3" (PyErr.remoteError "quota exceeded") (by decide) rfl rfl⟩

/-- C8: in every run at most one `model.generate_content` call is issued, and
whenever the generation step is reached at all (valid inputs, configure and
upload succeeded) exactly one is issued — even when it fails, no retry and no
second attempt occurs. -/
theorem c8_single_generate_attempt (key : String) (file : Option String)
    (model : String) (o : Oracle) :
    generateCount (processAudio key file model o).1 ≤ 1 ∧
    (key ≠ "" → ∀ f, file = some f → o.configure = Except.ok () → o.upload = Except.ok () →
      generateCount (processAudio key file model o).1 = 1) := by
  rcases o with ⟨c, u, g, dr, dl⟩
  constructor
  · by_cases hk : key = ""
    · simp [processAudio, hk, generateCount, isGenerate]
    · cases file with
      | none => simp [processAudio, hk, generateCount, isGenerate]
      | some f =>
        cases c <;> cases u <;> cases g <;> cases dr <;> cases dl <;>
          simp [processAudio, processBody, hk, generateCount, isGenerate]
  · intro hk f hf hc hu
    subst hf
    simp only at hc hu
    subst hc
    subst hu
    cases g <;> cases dr <;> cases dl <;>
      simp [processAudio, processBody, hk, generateCount, isGenerate]

/-- C8 witness: a run whose generate call fails still issues exactly one
generation request. -/
theorem c8_single_generate_attempt_witness :
    generateCount (processAudio "k" (some "a.mp3") "m" ⟨.ok (), .ok (), .error (.remoteError "boom"), .ok (), .ok ()⟩).1 ≤ 1 ∧
    generateCount (processAudio "k" (some "a.mp3") "m" ⟨.ok (), .ok (), .error (.remoteError "boom"), .ok (), .ok ()⟩).1 = 1 := by
  have h := c8_single_generate_attempt "k" (some "a.mp3") "m"
    ⟨.ok (), .ok (), .error (.remoteError "boom"), .ok (), .ok ()⟩
  exact ⟨h.1, h.2 (by decide) "a.mp3" rfl rfl rfl⟩

/-- Oracle for a run in which every remote call succeeds and the model
returns text that is not valid JSON. -/
def c1MalformedRunOracle : Oracle :=
  ⟨.ok (), .ok (), .ok "this is not json", .ok (), .ok ()⟩

/-- C1 (code bug): on a run whose response text is not valid JSON, the
shipped script does NOT show the malformed-response warning of line 211 nor
the raw text via `st.code` (line 212): because `json` is never imported,
line 149 raises `NameError` before parsing, the `except json.JSONDecodeError`
clause raises `NameError` again, and the outer handler shows only the generic
`An error occurred:` message.  The full trace is computed below: it ends in
the top-level `NameError` message, contains no `st.code` block at all and not
the line-211 warning text — yet nothing escapes (no crash). -/
theorem c1_code_bug_missing_json_import :
    processAudio "k" (some "meeting.mp3") "gemini-2.5-pro" c1MalformedRunOracle =
      ([Ev.configureCall, Ev.spinner "Analyzing with gemini-2.5-pro...",
        Ev.writeTempFile, Ev.infoMsg "Uploading audio file securely...",
        Ev.uploadCall, Ev.infoMsg "Generating transcripts and meeting notes...",
        Ev.generateCall, Ev.deleteRemoteCall, Ev.removeLocalCall,
        Ev.successMsg "Processing Complete!", Ev.topLevelError PyErr.nameError], none) ∧
    Ev.errorMsg "The model did not return perfectly formatted JSON. Here is the raw output:" ∉
      (processAudio "k" (some "meeting.mp3") "gemini-2.5-pro" c1MalformedRunOracle).1 ∧
    (∀ j, Ev.codeBlock j ∉
      (processAudio "k" (some "meeting.mp3") "gemini-2.5-pro" c1MalformedRunOracle).1) := by
  have h1 : processAudio "k" (some "meeting.mp3") "gemini-2.5-pro" c1MalformedRunOracle =
      ([Ev.configureCall, Ev.spinner "Analyzing with gemini-2.5-pro...",
        Ev.writeTempFile, Ev.infoMsg "Uploading audio file securely...",
        Ev.uploadCall, Ev.infoMsg "Generating transcripts and meeting notes...",
        Ev.generateCall, Ev.deleteRemoteCall, Ev.removeLocalCall,
        Ev.successMsg "Processing Complete!", Ev.topLevelError PyErr.nameError], none) := rfl
  refine ⟨h1, ?_, ?_⟩
  · rw [h1]
    intro hmem
    simp at hmem
  · intro j
    rw [h1]
    intro hmem
    simp at hmem

/-- Oracle for a run in which upload succeeds but generation raises. -/
def c2FailGenOracle : Oracle :=
  ⟨.ok (), .ok (), .error (.remoteError "network unreachable"), .ok (), .ok ()⟩

/-- C2 counterexample: in a run whose generation call raises, the staged
temp file has been written and the remote upload has happened, yet neither
`genai.delete_file` nor `os.remove` is ever called — the claim that both
artifacts are deleted on every exit path, including generation failure, is
false of the code (cleanup at lines 142-143 sits after `generate_content`
on the success path only, with no `finally`). -/
theorem c2_counterexample_no_cleanup_on_generate_failure :
    processAudio "key" (some "meeting.mp3") "gemini-2.5-pro" c2FailGenOracle =
      ([Ev.configureCall, Ev.spinner "Analyzing with gemini-2.5-pro...",
        Ev.writeTempFile, Ev.infoMsg "Uploading audio file securely...",
        Ev.uploadCall, Ev.infoMsg "Generating transcripts and meeting notes...",
        Ev.generateCall, Ev.topLevelError (PyErr.remoteError "network unreachable")], none) ∧
    Ev.writeTempFile ∈ (processAudio "key" (some "meeting.mp3") "gemini-2.5-pro" c2FailGenOracle).1 ∧
    Ev.uploadCall ∈ (processAudio "key" (some "meeting.mp3") "gemini-2.5-pro" c2FailGenOracle).1 ∧
    Ev.deleteRemoteCall ∉ (processAudio "key" (some "meeting.mp3") "gemini-2.5-pro" c2FailGenOracle).1 ∧
    Ev.removeLocalCall ∉ (processAudio "key" (some "meeting.mp3") "gemini-2.5-pro" c2FailGenOracle).1 := by
  have h1 : processAudio "key" (some "meeting.mp3") "gemini-2.5-pro" c2FailGenOracle =
      ([Ev.configureCall, Ev.spinner "Analyzing with gemini-2.5-pro...",
        Ev.writeTempFile, Ev.infoMsg "Uploading audio file securely...",
        Ev.uploadCall, Ev.infoMsg "Generating transcripts and meeting notes...",
        Ev.generateCall, Ev.topLevelError (PyErr.remoteError "network unreachable")], none) := rfl
  refine ⟨h1, ?_, ?_, ?_, ?_⟩ <;> rw [h1] <;> simp

/-- C2 as amended: cleanup happens only on the success path.  Whenever the
run reaches generation and it succeeds, `genai.delete_file` is called, and —
provided that call returns — `os.remove` is called too; but whenever the
generation call raises, neither deletion occurs, regardless of everything
else, so both artifacts leak on that exit path. -/
theorem c2_cleanup_success_path_only (key f model : String) (o : Oracle) (hk : key ≠ "") :
    (o.configure = Except.ok () → o.upload = Except.ok () → exOk o.generate = true →
      Ev.deleteRemoteCall ∈ (processAudio key (some f) model o).1 ∧
      (o.deleteRemote = Except.ok () →
        Ev.removeLocalCall ∈ (processAudio key (some f) model o).1)) ∧
    (exOk o.generate = false →
      Ev.deleteRemoteCall ∉ (processAudio key (some f) model o).1 ∧
      Ev.removeLocalCall ∉ (processAudio key (some f) model o).1) := by
  rcases o with ⟨c, u, g, dr, dl⟩
  cases c <;> cases u <;> cases g <;> cases dr <;> cases dl <;>
    simp [processAudio, processBody, exOk, if_neg hk]

/-- C2 amended-claim witness: on a concrete all-success run both deletions
appear in the trace. -/
theorem c2_cleanup_success_path_only_witness :
    Ev.deleteRemoteCall ∈
      (processAudio "k" (some "a.mp3") "m" ⟨.ok (), .ok (), .ok "t", .ok (), .ok ()⟩).1 ∧
    Ev.removeLocalCall ∈
      (processAudio "k" (some "a.mp3") "m" ⟨.ok (), .ok (), .ok "t", .ok (), .ok ()⟩).1 := by
  have h := c2_cleanup_success_path_only "k" "a.mp3" "m"
    ⟨.ok (), .ok (), .ok "t", .ok (), .ok ()⟩ (by decide)
  exact ⟨(h.1 rfl rfl rfl).1, (h.1 rfl rfl rfl).2 rfl⟩

/-- A successfully parsed response (`json.loads` of
`'\x7b"meeting_note": 0\x7d'`) whose `meeting_note` value is not a dict. -/
def c7IllTypedDoc : Json := Json.obj [("meeting_note", Json.num 0)]

/-- C7 counterexample: the claim quantifies over every successfully parsed
response, but for the parsed document `\x7b"meeting_note": 0\x7d` the
dashboard tab raises `AttributeError` at `notes.get` (line 172) before the
raw-JSON tab is reached, so the raw response text is never exposed: no
`st.code` event carrying it (nor any other) appears in the trace. -/
theorem c7_counterexample_raw_never_reached :
    renderBody c7IllTypedDoc "RAW" =
      ([Ev.header "Meeting Dashboard",
        Ev.metric "Speakers Detected" (Json.str "N/A"),
        Ev.metric "Primary Languages" (Json.str ""),
        Ev.metric "Audio Quality" (Json.str ""),
        Ev.divider,
        Ev.subheader "Overview"], some PyErr.attributeError) ∧
    Ev.codeBlock (Json.str "RAW") ∉ (renderBody c7IllTypedDoc "RAW").1 := by
  have h1 : renderBody c7IllTypedDoc "RAW" =
      ([Ev.header "Meeting Dashboard",
        Ev.metric "Speakers Detected" (Json.str "N/A"),
        Ev.metric "Primary Languages" (Json.str ""),
        Ev.metric "Audio Quality" (Json.str ""),
        Ev.divider,
        Ev.subheader "Overview"], some PyErr.attributeError) := rfl
  refine ⟨h1, ?_⟩
  rw [h1]
  intro hmem
  simp at hmem

/-- C7 as amended: for every parsed response whose dashboard and transcript
projections complete without raising, the raw response text is exposed
verbatim in the raw-JSON view — `st.code(response.text)` at line 208 receives
exactly the response string. -/
theorem c7_raw_json_exposed_on_clean_render (data : Json) (raw : String)
    (h : (renderBody data raw).2 = none) :
    Ev.codeBlock (Json.str raw) ∈ (renderBody data raw).1 := by
  unfold renderBody at h ⊢
  rcases h1 : tab1Evs data with ⟨es, r⟩
  cases r with
  | error e => rw [h1] at h; simp at h
  | ok _ =>
    rcases h2 : tab2Evs data with ⟨fs, r2⟩
    cases r2 with
    | error e => rw [h1, h2] at h; simp at h
    | ok _ => simp [tab3Evs]

/-- C7 amended-claim witness: the empty-object response renders cleanly and
its raw text `"x"` appears in the raw-JSON view. -/
theorem c7_raw_json_exposed_on_clean_render_witness :
    (renderBody (Json.obj []) "x").2 = none ∧
    Ev.codeBlock (Json.str "x") ∈ (renderBody (Json.obj []) "x").1 :=
  ⟨rfl, c7_raw_json_exposed_on_clean_render (Json.obj []) "x" rfl⟩

/-- C3 counterexample: `json.loads("[]")` succeeds and yields a document with
no top-level `meeting_note` key at all, yet the renderer raises
`AttributeError` at the very first projection (`data.get` at line 158 — a
Python list has no `.get`), displays no placeholder text whatsoever and no
copy block, instead of the claimed complete placeholder display. -/
theorem c3_counterexample_nonobject_response :
    renderBody (Json.arr []) "[]" =
      ([Ev.header "Meeting Dashboard"], some PyErr.attributeError) ∧
    (∀ j, Ev.write j ∉ (renderBody (Json.arr []) "[]").1) ∧
    (∀ j, Ev.codeBlock j ∉ (renderBody (Json.arr []) "[]").1) := by
  have h1 : renderBody (Json.arr []) "[]" =
      ([Ev.header "Meeting Dashboard"], some PyErr.attributeError) := rfl
  refine ⟨h1, ?_, ?_⟩ <;> intro j <;> rw [h1] <;> intro hmem <;> simp at hmem

/-- C3 as amended: for every successfully parsed response that is a JSON
object with no `meeting_note` key, the renderer completes without raising and
shows the placeholder texts — provided the dashboard's metadata row is itself
renderable (`meeting_metadata` absent or a dict whose `primary_languages` and
`audio_quality_notes` values `", ".join` accepts); without that proviso the
claim is false (see the counterexample).  The display then contains the
missing-note placeholders `"No overview provided."` and
`"No action items detected."` and still reaches the raw-JSON view. -/
theorem c3_missing_meeting_note_placeholders (fs : List (String × Json)) (raw : String)
    (hnote : jlookup fs "meeting_note" = none)
    (hmeta : metaRenderOk ((jlookup fs "meeting_metadata").getD (Json.obj [])) = true) :
    (renderBody (Json.obj fs) raw).2 = none ∧
    Ev.write (Json.str "No overview provided.") ∈ (renderBody (Json.obj fs) raw).1 ∧
    Ev.write (Json.str "No action items detected.") ∈ (renderBody (Json.obj fs) raw).1 ∧
    Ev.codeBlock (Json.str raw) ∈ (renderBody (Json.obj fs) raw).1 := by
  set meta := (jlookup fs "meeting_metadata").getD (Json.obj []) with hmetadef
  rw [metaRenderOk, Bool.and_eq_true, Bool.and_eq_true] at hmeta
  obtain ⟨⟨hs, hp⟩, ha⟩ := hmeta
  cases e1 : pyGet meta "speaker_count_estimate" (Json.str "N/A") with
  | error e => rw [e1] at hs; simp [exOk] at hs
  | ok spk =>
  cases e2 : pyGet meta "primary_languages" (Json.arr []) with
  | error e => rw [e2] at hp; simp at hp
  | ok plJ =>
  cases e3 : pyJoin plJ with
  | error e => rw [e2] at hp; simp [exOk, e3] at hp
  | ok pl =>
  cases e4 : pyGet meta "audio_quality_notes" (Json.arr []) with
  | error e => rw [e4] at ha; simp at ha
  | ok aqJ =>
  cases e5 : pyJoin aqJ with
  | error e => rw [e4] at ha; simp [exOk, e5] at ha
  | ok aq =>
  have hd : pyGet (Json.obj fs) "meeting_metadata" (Json.obj []) = Except.ok meta := by
    rw [hmetadef]; rfl
  have hm : metaStage (Json.obj fs) =
      ([Ev.header "Meeting Dashboard", Ev.metric "Speakers Detected" spk,
        Ev.metric "Primary Languages" (Json.str pl), Ev.metric "Audio Quality" (Json.str aq),
        Ev.divider], Except.ok ()) := by
    simp only [metaStage, bindS, liftS, emitS, hd, e1, e2, e3, e4, e5]
    simp
  have hget : pyGet (Json.obj fs) "meeting_note" (Json.obj []) = Except.ok (Json.obj []) := by
    simp [pyGet, hnote]
  have hn : notesStage (Json.obj fs) =
      ([Ev.subheader "Overview", Ev.write (Json.str "No overview provided."),
        Ev.subheader "Executive Summary", Ev.divider, Ev.subheader "✅ Action Items",
        Ev.write (Json.str "No action items detected."),
        Ev.markdown "**Decisions Made:**", Ev.markdown "**Risks / Blockers:**"],
       Except.ok ()) := by
    simp only [notesStage, hget]
    rfl
  have ht1 : tab1Evs (Json.obj fs) =
      ([Ev.header "Meeting Dashboard", Ev.metric "Speakers Detected" spk,
        Ev.metric "Primary Languages" (Json.str pl), Ev.metric "Audio Quality" (Json.str aq),
        Ev.divider, Ev.subheader "Overview", Ev.write (Json.str "No overview provided."),
        Ev.subheader "Executive Summary", Ev.divider, Ev.subheader "✅ Action Items",
        Ev.write (Json.str "No action items detected."),
        Ev.markdown "**Decisions Made:**", Ev.markdown "**Risks / Blockers:**"],
       Except.ok ()) := by
    simp only [tab1Evs, bindS, hm, hn]
    simp
  have ht2 : tab2Evs (Json.obj fs) =
      ([Ev.header "Transcript",
        Ev.caption "Hover over the top right corner of the box below to copy the transcript.",
        Ev.codeBlock ((jlookup fs "transcript_plaintext").getD (Json.str "No transcript available."))],
       Except.ok ()) := by
    simp [tab2Evs, bindS, liftS, emitS, pyGet]
  have hr : renderBody (Json.obj fs) raw =
      ([Ev.header "Meeting Dashboard", Ev.metric "Speakers Detected" spk,
        Ev.metric "Primary Languages" (Json.str pl), Ev.metric "Audio Quality" (Json.str aq),
        Ev.divider, Ev.subheader "Overview", Ev.write (Json.str "No overview provided."),
        Ev.subheader "Executive Summary", Ev.divider, Ev.subheader "✅ Action Items",
        Ev.write (Json.str "No action items detected."),
        Ev.markdown "**Decisions Made:**", Ev.markdown "**Risks / Blockers:**",
        Ev.header "Transcript",
        Ev.caption "Hover over the top right corner of the box below to copy the transcript.",
        Ev.codeBlock ((jlookup fs "transcript_plaintext").getD (Json.str "No transcript available.")),
        Ev.header "Raw JSON Output", Ev.codeBlock (Json.str raw)], none) := by
    simp [renderBody, ht1, ht2, tab3Evs]
  refine ⟨by rw [hr], ?_, ?_, ?_⟩ <;> rw [hr] <;> simp

/-- C3 amended-claim witness: a concrete parsed object bearing only a
transcript, with `meeting_note` (and `meeting_metadata`) absent, renders
cleanly with the placeholders and the raw view. -/
theorem c3_missing_meeting_note_placeholders_witness :
    (renderBody (Json.obj [("transcript_plaintext", Json.str "hello")]) "RAWTEXT").2 = none ∧
    Ev.write (Json.str "No overview provided.") ∈
      (renderBody (Json.obj [("transcript_plaintext", Json.str "hello")]) "RAWTEXT").1 ∧
    Ev.write (Json.str "No action items detected.") ∈
      (renderBody (Json.obj [("transcript_plaintext", Json.str "hello")]) "RAWTEXT").1 ∧
    Ev.codeBlock (Json.str "RAWTEXT") ∈
      (renderBody (Json.obj [("transcript_plaintext", Json.str "hello")]) "RAWTEXT").1 :=
  c3_missing_meeting_note_placeholders [("transcript_plaintext", Json.str "hello")] "RAWTEXT" rfl rfl

/-- C10: for every action-item list whose entries are dicts (the only values
for which "missing nested fields" is meaningful — a non-dict entry raises
`AttributeError` at `.get`), the rendering loop of lines 185-186 completes
without raising; and when the four nested fields are all absent the rendered
line is exactly `**None** ...(Owner: Unassigned | Deadline: None | Priority:
Normal)...` — the missing action text interpolates as Python `str(None)`,
i.e. `None`, with no error. -/
theorem c10_action_item_defaults (acts : List Json) (h : ∀ a ∈ acts, a.isObj = true) :
    (renderActsS acts).2 = Except.ok () ∧
    (∀ gs rest, acts = Json.obj gs :: rest →
      jlookup gs "action" = none → jlookup gs "owner" = none →
      jlookup gs "deadline" = none → jlookup gs "priority" = none →
      (renderActsS acts).1.head? =
        some (Ev.markdown "**None** \n*(Owner: Unassigned | Deadline: None | Priority: Normal)*")) := by
  constructor
  · induction acts with
    | nil => rfl
    | cons a rest ih =>
      have ha : a.isObj = true := h a (List.mem_cons_self a rest)
      have hrest : ∀ x ∈ rest, x.isObj = true := fun x hx => h x (List.mem_cons_of_mem a hx)
      cases a <;> simp [Json.isObj] at ha
      case obj gs =>
        simp [renderActsS, bindS, liftS, emitS, pyGet]
        exact ih hrest
  · intro gs rest heq h1 h2 h3 h4
    subst heq
    have e1 : pyGet (Json.obj gs) "action" Json.null = Except.ok Json.null := by
      simp [pyGet, h1]
    have e2 : pyGet (Json.obj gs) "owner" (Json.str "Unassigned") = Except.ok (Json.str "Unassigned") := by
      simp [pyGet, h2]
    have e3 : pyGet (Json.obj gs) "deadline" (Json.str "None") = Except.ok (Json.str "None") := by
      simp [pyGet, h3]
    have e4 : pyGet (Json.obj gs) "priority" (Json.str "Normal") = Except.ok (Json.str "Normal") := by
      simp [pyGet, h4]
    simp only [renderActsS, bindS, liftS, emitS, e1, e2, e3, e4]
    simp [pyStr, pyRepr]

/-- C10 witness: the single action item `\x7b\x7d` (all four fields missing)
renders without error as the all-defaults line. -/
theorem c10_action_item_defaults_witness :
    (renderActsS [Json.obj []]).2 = Except.ok () ∧
    (renderActsS [Json.obj []]).1.head? =
      some (Ev.markdown "**None** \n*(Owner: Unassigned | Deadline: None | Priority: Normal)*") := by
  have h := c10_action_item_defaults [Json.obj []] (by decide)
  exact ⟨h.1, h.2 [] [] rfl rfl rfl rfl rfl⟩
